import Mathlib

/-!
Verification of the champion/challenger model-promotion workflow of the
news-classifier project (utils/production_criteria.py, utils/mlflow_helpers.py,
track_a_external/experiment_external.py, scripts/promote_to_production.py).

Python floats are modelled as rational numbers; metric dictionaries as
association lists from metric name to value, looked up with a 0 default as in
`metrics.get(key, 0.0)`.  Because the library's rational arithmetic is
irreducible, subtraction is implemented through the reducible smart
constructor `mkRat` and proved equal to the standard subtraction below.
-/

namespace NewsClassifier

/-- Subtraction on rationals through the reducible `mkRat` smart constructor;
proved equal to `Sub.sub` in `qsub_eq` below. -/
def qsub (a b : ℚ) : ℚ :=
  mkRat (a.num * b.den - b.num * a.den) (a.den * b.den)

/-- Round the fraction a / b (with b positive) to the nearest integer, ties to
even, mirroring the rounding used by Python's string formatting. -/
def roundHalfEvenInt (a b : ℤ) : ℤ :=
  let q := Int.ediv a b
  let r := a - q * b
  if 2 * r < b then q
  else if b < 2 * r then q + 1
  else if q % 2 = 0 then q else q + 1

/-- Left-pad a digit string with zeros to the given length. -/
def padZeros (s : String) (len : Nat) : String :=
  String.mk (List.replicate (len - s.length) ('0')) ++ s

/-- Render the fraction a / b (b positive) with `prec` digits after the decimal
point, as Python's fixed-point format does. -/
def fmtScaled (a : ℤ) (b : ℤ) (prec : Nat) : String :=
  let n := roundHalfEvenInt (a * (10 : ℤ) ^ prec) b
  let sign := if n < 0 then "-" else ""
  let m := n.natAbs
  let ip := m / 10 ^ prec
  let fp := m % 10 ^ prec
  if prec = 0 then sign ++ toString ip
  else sign ++ toString ip ++ "." ++ padZeros (toString fp) prec

/-- Model of Python's percent format with two decimals, as in a Python
formatted value with a .2 percent conversion: multiply by 100, two decimals,
and a percent sign. -/
def fmtPercent (q : ℚ) : String :=
  fmtScaled (q.num * 100) q.den 2 ++ "%"

/-- Model of Python's fixed-point format with three decimals. -/
def fmtFixed3 (q : ℚ) : String :=
  fmtScaled q.num q.den 3

/-- A metrics dictionary: metric name to value. -/
abbrev Metrics := List (String × ℚ)

/-- Model of `metrics.get(key, 0.0)`: association-list lookup defaulting
to zero. -/
def mget (metrics : Metrics) (key : String) : ℚ :=
  (List.lookup key metrics).getD 0

def keyCategoryAccuracy : String := "category_accuracy"

def keyCategoryF1 : String := "category_f1_weighted"

def keyCategoryPrecision : String := "category_precision_weighted"

def keyCategoryRecall : String := "category_recall_weighted"

def keySentimentAccuracy : String := "sentiment_accuracy"

def providerName : String := "openai"

def modelName : String := "gpt-4o-mini"

/-- The `ProductionCriteria` dataclass of utils/production_criteria.py. -/
structure ProductionCriteria where
  min_accuracy : ℚ
  min_f1_score : ℚ
  min_precision : ℚ
  min_recall : ℚ
  min_accuracy_improvement : ℚ
  max_latency_p95 : ℚ
  max_latency_p99 : ℚ
  max_cost_increase : ℚ
  min_cost_savings : ℚ

/-- The default `ProductionCriteria()` instance: 0.90, 0.85, 0.80, 0.80,
0.02, 3.0, 5.0, 0.20, 0.30, written as reduced fractions. -/
def defaultCriteria : ProductionCriteria where
  min_accuracy := Rat.mk' 9 10
  min_f1_score := Rat.mk' 17 20
  min_precision := Rat.mk' 4 5
  min_recall := Rat.mk' 4 5
  min_accuracy_improvement := Rat.mk' 1 50
  max_latency_p95 := Rat.mk' 3 1
  max_latency_p99 := Rat.mk' 5 1
  max_cost_increase := Rat.mk' 1 5
  min_cost_savings := Rat.mk' 3 10

def reasonSep : String := "; "

def successMessage : String := "All performance criteria met"

def accuracyClause (v t : ℚ) : String :=
  "Accuracy " ++ fmtPercent v ++ " below " ++ fmtPercent t ++ " threshold"

def f1Clause (v t : ℚ) : String :=
  "F1 score " ++ fmtFixed3 v ++ " below " ++ fmtFixed3 t ++ " threshold"

def precisionClause (v t : ℚ) : String :=
  "Precision " ++ fmtFixed3 v ++ " below " ++ fmtFixed3 t ++ " threshold"

def recallClause (v t : ℚ) : String :=
  "Recall " ++ fmtFixed3 v ++ " below " ++ fmtFixed3 t ++ " threshold"

/-- `evaluate_performance_criteria` of utils/production_criteria.py: check the
four metrics (each read with a 0 default) against the thresholds, collecting a
clause per failing metric; pass only when no clause was collected. -/
def evaluate_performance_criteria (metrics : Metrics) (criteria : ProductionCriteria) :
    Bool × String :=
  let accuracyVal := mget metrics keyCategoryAccuracy
  let f1Val := mget metrics keyCategoryF1
  let precisionVal := mget metrics keyCategoryPrecision
  let recallVal := mget metrics keyCategoryRecall
  let reasons : List String :=
    (if accuracyVal < criteria.min_accuracy then
      [accuracyClause accuracyVal criteria.min_accuracy] else []) ++
    (if f1Val < criteria.min_f1_score then [f1Clause f1Val criteria.min_f1_score] else []) ++
    (if precisionVal < criteria.min_precision then
      [precisionClause precisionVal criteria.min_precision] else []) ++
    (if recallVal < criteria.min_recall then [recallClause recallVal criteria.min_recall]
     else [])
  if reasons.isEmpty then (true, successMessage)
  else (false, String.intercalate reasonSep reasons)

/-- The list of one clause per failing metric, in source order. -/
def failingClauses (metrics : Metrics) (criteria : ProductionCriteria) : List String :=
  List.filterMap id
    [ (if mget metrics keyCategoryAccuracy < criteria.min_accuracy then
        some (accuracyClause (mget metrics keyCategoryAccuracy) criteria.min_accuracy) else none),
      (if mget metrics keyCategoryF1 < criteria.min_f1_score then
        some (f1Clause (mget metrics keyCategoryF1) criteria.min_f1_score) else none),
      (if mget metrics keyCategoryPrecision < criteria.min_precision then
        some (precisionClause (mget metrics keyCategoryPrecision) criteria.min_precision)
       else none),
      (if mget metrics keyCategoryRecall < criteria.min_recall then
        some (recallClause (mget metrics keyCategoryRecall) criteria.min_recall) else none) ]

/-- `evaluate_champion_criteria` of utils/production_criteria.py: the candidate
beats the champion when the accuracy improvement reaches
`min_accuracy_improvement`. -/
def evaluate_champion_criteria (new_accuracy current_accuracy : ℚ)
    (criteria : ProductionCriteria) : Bool × String :=
  let improvement := qsub new_accuracy current_accuracy
  if improvement < criteria.min_accuracy_improvement then
    (false,
      "Accuracy improvement " ++ fmtPercent improvement ++ " below " ++
      fmtPercent criteria.min_accuracy_improvement ++ " threshold (current: " ++
      fmtPercent current_accuracy ++ ", new: " ++ fmtPercent new_accuracy ++ ")")
  else
    (true, "Beats champion by " ++ fmtPercent improvement)

/-- Python's `round(x, 4)` on the metric value, returned as the integer
numerator over 10 to the 4th. -/
def pyRound4 (q : ℚ) : ℤ :=
  roundHalfEvenInt (q.num * 10 ^ 4) q.den

/-- Drop trailing zero digits of a fractional part, keeping at least one
digit, as Python's `str` of a float does. -/
def stripTrailingZeros (s : String) : String :=
  let dropped := (s.data.reverse.dropWhile (fun c => c = '0')).reverse
  if dropped.isEmpty then "0" else String.mk dropped

/-- Render `round(x, 4)` the way Python's `str` renders the resulting float:
integer part, a dot, and the fractional digits without trailing zeros. -/
def metricTagStr (q : ℚ) : String :=
  let k := pyRound4 q
  let sign := if k < 0 then "-" else ""
  let m := k.natAbs
  let ip := m / 10 ^ 4
  let fp := m % 10 ^ 4
  sign ++ toString ip ++ "." ++ stripTrailingZeros (padZeros (toString fp) 4)

/-- `get_registration_tags` of utils/production_criteria.py: the Unity Catalog
tags, with the three metric tags stringified after rounding to 4 places and
the validation reason truncated to 250 characters. -/
def get_registration_tags (metrics : Metrics) (track provider model : String)
    (passes_criteria : Bool) (reason : String) : List (String × String) :=
  [ ("track", track),
    ("provider", provider),
    ("model", model),
    ("category_accuracy", metricTagStr (mget metrics keyCategoryAccuracy)),
    ("category_f1", metricTagStr (mget metrics keyCategoryF1)),
    ("sentiment_accuracy", metricTagStr (mget metrics keySentimentAccuracy)),
    ("production_ready", if passes_criteria then "true" else "false"),
    ("validation_reason", reason.take 250) ]

/-- One registered model version in the Unity Catalog registry: its version
number, its tags, the metrics logged on its MLflow run, and a description. -/
structure ModelVersionEntry where
  version : Nat
  tags : List (String × String)
  runMetrics : Metrics
  description : String
deriving DecidableEq

/-- The registry state for one logical model name: the registered versions and
the alias table (each alias names at most one version). -/
structure Registry where
  entries : List ModelVersionEntry
  aliases : List (String × Nat)
deriving DecidableEq

def aliasChampion : String := "champion"

def aliasChallenger : String := "challenger"

def aliasCandidate : String := "candidate"

def aliasDefeated : String := "defeated"

/-- `set_registered_model_alias`: rebind the alias to the given version,
leaving every other alias binding alone. -/
def setAlias (al : List (String × Nat)) (a : String) (v : Nat) : List (String × Nat) :=
  match al with
  | [] => [(a, v)]
  | (b, w) :: rest => if b = a then (a, v) :: rest else (b, w) :: setAlias rest a v

/-- `delete_registered_model_alias`: drop the alias binding. -/
def deleteAlias (al : List (String × Nat)) (a : String) : List (String × Nat) :=
  match al with
  | [] => []
  | (b, w) :: rest => if b = a then deleteAlias rest a else (b, w) :: deleteAlias rest a

/-- Look an alias up in the registry's alias table. -/
def lookupAlias (r : Registry) (a : String) : Option Nat :=
  List.lookup a r.aliases

/-- The version number the next registration receives. -/
def nextVersion (r : Registry) : Nat :=
  r.entries.length + 1

/-- `register_model_to_uc` of utils/mlflow_helpers.py over the registry state:
register a new version carrying the run's metrics, the tags and the
description, then set the requested alias (if any) on that new version only. -/
def register_model_to_uc (r : Registry) (runMetrics : Metrics)
    (tags : List (String × String)) (description : String) (aliasOpt : Option String) :
    Registry × Nat :=
  let v := nextVersion r
  let entry : ModelVersionEntry := ⟨v, tags, runMetrics, description⟩
  let aliases := match aliasOpt with
    | some a => setAlias r.aliases a v
    | none => r.aliases
  (⟨r.entries ++ [entry], aliases⟩, v)

/-- Whether an existing entry's stored metric tags are value-identical to the
candidate metrics, compared on the stored string-formatted metric tags. -/
def duplicateTagMatch (e : ModelVersionEntry) (metrics : Metrics) : Bool :=
  (List.lookup ("category_accuracy") e.tags ==
      some (metricTagStr (mget metrics keyCategoryAccuracy))) &&
  (List.lookup ("category_f1") e.tags == some (metricTagStr (mget metrics keyCategoryF1))) &&
  (List.lookup ("sentiment_accuracy") e.tags ==
      some (metricTagStr (mget metrics keySentimentAccuracy)))

/-- Modelled from the spec: `check_duplicate_performance` is imported by both
experiment scripts from utils.production_criteria but its definition is not
under src.  Per the spec's DuplicateDetector contract it scans the existing
registry entries for the logical model name and returns the first entry whose
stored metric tags exactly match the candidate's metrics (equality on the
stored string-formatted metric tags), else none. -/
def check_duplicate_performance (r : Registry) (metrics : Metrics) :
    Option ModelVersionEntry :=
  r.entries.find? (fun e => duplicateTagMatch e metrics)

/-- A failing registry call: the looked-up object is absent, or the registry
is unreachable. -/
inductive RegFailure where
  | notFound : RegFailure
  | connectivity : RegFailure
deriving DecidableEq

/-- `get_champion_metrics` of utils/production_criteria.py, with the two
MLflow client calls modelled as oracles that either return a value or raise.
The inner try/except around `get_model_version_by_alias` returns None on any
exception; the outer try/except around the run lookup also returns None on
any exception; otherwise the four category metrics are read from the champion
run with a 0 default. -/
def get_champion_metrics (versionByAlias : Except RegFailure Nat)
    (getRun : Nat → Except RegFailure Metrics) : Option Metrics :=
  match versionByAlias with
  | Except.error _ => none
  | Except.ok runId =>
    match getRun runId with
    | Except.error _ => none
    | Except.ok ms =>
      some [ (keyCategoryAccuracy, mget ms keyCategoryAccuracy),
             (keyCategoryF1, mget ms keyCategoryF1),
             (keyCategoryPrecision, mget ms keyCategoryPrecision),
             (keyCategoryRecall, mget ms keyCategoryRecall) ]

/-- The gating decision of `run_experiment`
(track_a_external/experiment_external.py): returns the register flag after
gating together with the alias to assign.  `champion_metrics` is the result of
the `get_champion_metrics` call against the external registry. -/
def run_experiment_gate (auto_gate register_to_uc : Bool) (r : Registry) (metrics : Metrics)
    (champion_metrics : Option Metrics) : Bool × Option String :=
  if auto_gate then
    if (evaluate_performance_criteria metrics defaultCriteria).1 = false then (false, none)
    else
      match check_duplicate_performance r metrics with
      | some _ => (false, none)
      | none =>
        match champion_metrics with
        | none => (register_to_uc, some aliasChampion)
        | some cm =>
          let beats := (evaluate_champion_criteria (mget metrics keyCategoryAccuracy)
            (mget cm keyCategoryAccuracy) defaultCriteria).1
          (register_to_uc, some (if beats then aliasChallenger else aliasCandidate))
  else (register_to_uc, none)

/-- `run_experiment` of track_a_external/experiment_external.py restricted to
its registry effects, with `require_approval = False`: evaluate the criteria,
gate, and when registration is still enabled register the new version with the
chosen alias.  Returns the new registry state and, when a registration
happened, the new version number and its alias. -/
def run_experiment (r : Registry) (metrics : Metrics) (provider model : String)
    (register_to_uc auto_gate : Bool) (champion_metrics : Option Metrics) :
    Registry × Option (Nat × Option String) :=
  let passes := (evaluate_performance_criteria metrics defaultCriteria).1
  let reason := (evaluate_performance_criteria metrics defaultCriteria).2
  match run_experiment_gate auto_gate register_to_uc r metrics champion_metrics with
  | (doRegister, aliasOpt) =>
    if doRegister then
      let tags := get_registration_tags metrics "A" provider model passes reason
      let description :=
        if passes then "PRODUCTION READY - " ++ provider ++ " " ++ model ++ " - " ++ reason
        else "EXPERIMENT ONLY - " ++ provider ++ " " ++ model ++ " - " ++ reason
      let result := register_model_to_uc r metrics tags description aliasOpt
      (result.1, some (result.2, aliasOpt))
    else (r, none)

/-- Modelled from the spec: the Promotion Approval workflow (spec section 4.4,
second workflow) has no implementation under src; no script there re-aliases a
challenger to champion or assigns the defeated alias.  Modelled from the
spec's steps: locate the challenger (no-op when absent); on approval re-alias
an existing champion to defeated, re-alias the challenger entry to champion,
remove the challenger alias, and update both descriptions; on rejection leave
the registry unchanged. -/
def promotion_approval (r : Registry) (approve : Bool) : Registry × String :=
  match List.lookup aliasChallenger r.aliases with
  | none => (r, "no challenger found")
  | some vch =>
    if approve then
      let champ := List.lookup aliasChampion r.aliases
      let aliases1 := match champ with
        | some vc => setAlias r.aliases aliasDefeated vc
        | none => r.aliases
      let aliases2 := setAlias aliases1 aliasChampion vch
      let aliases3 := deleteAlias aliases2 aliasChallenger
      let entries := r.entries.map (fun e =>
        if e.version = vch then { e with description := "Promoted to champion" }
        else if champ = some e.version then { e with description := "Defeated by challenger" }
        else e)
      (⟨entries, aliases3⟩, "challenger promoted to champion")
    else (r, "promotion rejected")

/-- Whether the second list starts with the first list. -/
def startsWithL : List Char → List Char → Bool
  | [], _ => true
  | _ :: _, [] => false
  | p :: ps, c :: cs => p = c && startsWithL ps cs

/-- Whether the pattern occurs as a contiguous run inside the list. -/
def containsL (pat : List Char) : List Char → Bool
  | [] => startsWithL pat []
  | c :: cs => startsWithL pat (c :: cs) || containsL pat cs

/-- Whether `pat` occurs as a substring of `s`. -/
def strContains (s pat : String) : Bool :=
  containsL pat.data s.data

theorem qsub_eq (a b : ℚ) : qsub a b = a - b :=
  (Rat.sub_def' a b).symm

theorem evaluate_eq (m : Metrics) (c : ProductionCriteria) :
    evaluate_performance_criteria m c =
      (if (failingClauses m c).isEmpty then (true, successMessage)
       else (false, String.intercalate reasonSep (failingClauses m c))) := by
  unfold evaluate_performance_criteria failingClauses
  by_cases h1 : mget m keyCategoryAccuracy < c.min_accuracy <;>
    by_cases h2 : mget m keyCategoryF1 < c.min_f1_score <;>
    by_cases h3 : mget m keyCategoryPrecision < c.min_precision <;>
    by_cases h4 : mget m keyCategoryRecall < c.min_recall <;>
    simp [h1, h2, h3, h4]

theorem failing_nil_iff (m : Metrics) (c : ProductionCriteria) :
    failingClauses m c = [] ↔
      (c.min_accuracy ≤ mget m keyCategoryAccuracy ∧
       c.min_f1_score ≤ mget m keyCategoryF1 ∧
       c.min_precision ≤ mget m keyCategoryPrecision ∧
       c.min_recall ≤ mget m keyCategoryRecall) := by
  unfold failingClauses
  by_cases h1 : mget m keyCategoryAccuracy < c.min_accuracy <;>
    by_cases h2 : mget m keyCategoryF1 < c.min_f1_score <;>
    by_cases h3 : mget m keyCategoryPrecision < c.min_precision <;>
    by_cases h4 : mget m keyCategoryRecall < c.min_recall <;>
    simp [h1, h2, h3, h4]
  all_goals exact ⟨not_lt.mp (by assumption), not_lt.mp (by assumption),
    not_lt.mp (by assumption), not_lt.mp (by assumption)⟩

theorem passes_iff (m : Metrics) (c : ProductionCriteria) :
    (evaluate_performance_criteria m c).1 = true ↔
      (c.min_accuracy ≤ mget m keyCategoryAccuracy ∧
       c.min_f1_score ≤ mget m keyCategoryF1 ∧
       c.min_precision ≤ mget m keyCategoryPrecision ∧
       c.min_recall ≤ mget m keyCategoryRecall) := by
  rw [evaluate_eq]
  by_cases hf : (failingClauses m c).isEmpty
  · simp [hf, (failing_nil_iff m c).mp (List.isEmpty_iff.mp hf)]
  · have : ¬ failingClauses m c = [] := fun he => hf (by simp [he])
    simp [hf, (failing_nil_iff m c).not.mp this]

theorem evaluate_eq_failing (m : Metrics) (c : ProductionCriteria)
    (h : ¬ (c.min_accuracy ≤ mget m keyCategoryAccuracy ∧
            c.min_f1_score ≤ mget m keyCategoryF1 ∧
            c.min_precision ≤ mget m keyCategoryPrecision ∧
            c.min_recall ≤ mget m keyCategoryRecall)) :
    evaluate_performance_criteria m c =
      (false, String.intercalate reasonSep (failingClauses m c)) := by
  rw [evaluate_eq]
  have hne : ¬ failingClauses m c = [] := (failing_nil_iff m c).not.mpr h
  simp [List.isEmpty_iff, hne]

theorem beats_iff (n cur : ℚ) (crit : ProductionCriteria) :
    (evaluate_champion_criteria n cur crit).1 = true ↔
      crit.min_accuracy_improvement ≤ n - cur := by
  unfold evaluate_champion_criteria
  rw [qsub_eq]
  by_cases h : n - cur < crit.min_accuracy_improvement
  · simp [h, not_le.mpr h]
  · simp [h, not_lt.mp h]

/-- C2: evaluate_performance_criteria returns passes true with exactly the
fixed success reason iff the four checked metrics (0 when absent) all reach
their thresholds; otherwise it returns passes false with the semicolon-joined
list of one clause per failing metric. -/
theorem claim_C2 (m : Metrics) (c : ProductionCriteria) :
    (evaluate_performance_criteria m c = (true, "All performance criteria met") ↔
      (c.min_accuracy ≤ mget m keyCategoryAccuracy ∧
       c.min_f1_score ≤ mget m keyCategoryF1 ∧
       c.min_precision ≤ mget m keyCategoryPrecision ∧
       c.min_recall ≤ mget m keyCategoryRecall)) ∧
    (¬ (c.min_accuracy ≤ mget m keyCategoryAccuracy ∧
        c.min_f1_score ≤ mget m keyCategoryF1 ∧
        c.min_precision ≤ mget m keyCategoryPrecision ∧
        c.min_recall ≤ mget m keyCategoryRecall) →
      evaluate_performance_criteria m c =
        (false, String.intercalate reasonSep (failingClauses m c))) := by
  constructor
  · constructor
    · intro h
      exact (passes_iff m c).mp (by rw [h])
    · intro h
      have hp := (passes_iff m c).mpr h
      by_cases hall : (c.min_accuracy ≤ mget m keyCategoryAccuracy ∧
          c.min_f1_score ≤ mget m keyCategoryF1 ∧
          c.min_precision ≤ mget m keyCategoryPrecision ∧
          c.min_recall ≤ mget m keyCategoryRecall)
      · unfold evaluate_performance_criteria
        simp [not_lt.mpr hall.1, not_lt.mpr hall.2.1, not_lt.mpr hall.2.2.1,
          not_lt.mpr hall.2.2.2, successMessage]
      · exact absurd h hall
  · exact evaluate_eq_failing m c

theorem claim_C2_witness :
    (evaluate_performance_criteria
      [(keyCategoryAccuracy, Rat.mk' 19 20), (keyCategoryF1, Rat.mk' 9 10),
       (keyCategoryPrecision, Rat.mk' 9 10), (keyCategoryRecall, Rat.mk' 9 10)]
      defaultCriteria = (true, "All performance criteria met")) ∧
    (evaluate_performance_criteria [] defaultCriteria =
      (false, String.intercalate reasonSep (failingClauses [] defaultCriteria))) :=
  ⟨(claim_C2 _ defaultCriteria).1.mpr (by decide),
   (claim_C2 [] defaultCriteria).2 (by decide)⟩

/-- C3: the candidate beats the champion iff the accuracy improvement reaches
min_accuracy_improvement (default 0.02, an inclusive boundary); at accuracies
0.92 over 0.90 the result is beats, at 0.915 over 0.90 it is not. -/
theorem claim_C3 :
    (∀ (n cur : ℚ) (crit : ProductionCriteria),
      (evaluate_champion_criteria n cur crit).1 = true ↔
        crit.min_accuracy_improvement ≤ n - cur) ∧
    defaultCriteria.min_accuracy_improvement = 0.02 ∧
    (evaluate_champion_criteria (Rat.mk' 23 25) (Rat.mk' 9 10) defaultCriteria).1 = true ∧
    (evaluate_champion_criteria (Rat.mk' 183 200) (Rat.mk' 9 10) defaultCriteria).1 = false := by
  refine ⟨beats_iff, ?_, by decide, by decide⟩
  rw [show defaultCriteria.min_accuracy_improvement = Rat.mk' 1 50 from rfl,
    Rat.mk'_eq_divInt]
  norm_num [Rat.divInt_eq_div]

theorem claim_C3_witness :
    defaultCriteria.min_accuracy_improvement ≤ Rat.mk' 23 25 - Rat.mk' 9 10 ∧
    (evaluate_champion_criteria (Rat.mk' 23 25) (Rat.mk' 9 10) defaultCriteria).1 = true := by
  have h : defaultCriteria.min_accuracy_improvement ≤ Rat.mk' 23 25 - Rat.mk' 9 10 :=
    qsub_eq (Rat.mk' 23 25) (Rat.mk' 9 10) ▸ (by decide :
      defaultCriteria.min_accuracy_improvement ≤ qsub (Rat.mk' 23 25) (Rat.mk' 9 10))
  exact ⟨h, (claim_C3.1 _ _ _).mpr h⟩

/-- C9: evaluate_performance_criteria is total (always returns a pair), and a
metric key absent from the mapping is read as 0, which fails that metric's
check whenever the threshold is positive, rather than erroring. -/
theorem claim_C9 (m : Metrics) (c : ProductionCriteria) :
    (∃ b r, evaluate_performance_criteria m c = (b, r)) ∧
    (List.lookup keyCategoryAccuracy m = none → 0 < c.min_accuracy →
      (evaluate_performance_criteria m c).1 = false) ∧
    (List.lookup keyCategoryF1 m = none → 0 < c.min_f1_score →
      (evaluate_performance_criteria m c).1 = false) ∧
    (List.lookup keyCategoryPrecision m = none → 0 < c.min_precision →
      (evaluate_performance_criteria m c).1 = false) ∧
    (List.lookup keyCategoryRecall m = none → 0 < c.min_recall →
      (evaluate_performance_criteria m c).1 = false) := by
  refine ⟨⟨_, _, rfl⟩, ?_, ?_, ?_, ?_⟩ <;> intro hnone hpos <;>
    cases hb : (evaluate_performance_criteria m c).1 with
  | false => rfl
  | true =>
    exfalso
    have hall := (passes_iff m c).mp hb
    simp only [mget, hnone, Option.getD_none] at hall
    first
    | exact absurd hall.1 (not_le.mpr hpos)
    | exact absurd hall.2.1 (not_le.mpr hpos)
    | exact absurd hall.2.2.1 (not_le.mpr hpos)
    | exact absurd hall.2.2.2 (not_le.mpr hpos)

theorem claim_C9_witness :
    List.lookup keyCategoryAccuracy ([] : Metrics) = none ∧
    (0 : ℚ) < defaultCriteria.min_accuracy ∧
    (evaluate_performance_criteria [] defaultCriteria).1 = false :=
  ⟨rfl, by decide, (claim_C9 [] defaultCriteria).2.1 rfl (by decide)⟩

/-- C10: evaluate_performance_criteria is monotone in the metrics: raising the
four checked metric readings can never turn a pass into a fail. -/
theorem claim_C10 (c : ProductionCriteria) (m m' : Metrics)
    (h1 : mget m keyCategoryAccuracy ≤ mget m' keyCategoryAccuracy)
    (h2 : mget m keyCategoryF1 ≤ mget m' keyCategoryF1)
    (h3 : mget m keyCategoryPrecision ≤ mget m' keyCategoryPrecision)
    (h4 : mget m keyCategoryRecall ≤ mget m' keyCategoryRecall)
    (hpass : (evaluate_performance_criteria m c).1 = true) :
    (evaluate_performance_criteria m' c).1 = true := by
  have hall := (passes_iff m c).mp hpass
  exact (passes_iff m' c).mpr
    ⟨le_trans hall.1 h1, le_trans hall.2.1 h2, le_trans hall.2.2.1 h3,
     le_trans hall.2.2.2 h4⟩

theorem claim_C10_witness :
    (evaluate_performance_criteria
      [(keyCategoryAccuracy, Rat.mk' 19 20), (keyCategoryF1, Rat.mk' 9 10),
       (keyCategoryPrecision, Rat.mk' 9 10), (keyCategoryRecall, Rat.mk' 9 10)]
      defaultCriteria).1 = true :=
  claim_C10 defaultCriteria
    [(keyCategoryAccuracy, Rat.mk' 9 10), (keyCategoryF1, Rat.mk' 17 20),
     (keyCategoryPrecision, Rat.mk' 4 5), (keyCategoryRecall, Rat.mk' 4 5)]
    [(keyCategoryAccuracy, Rat.mk' 19 20), (keyCategoryF1, Rat.mk' 9 10),
     (keyCategoryPrecision, Rat.mk' 9 10), (keyCategoryRecall, Rat.mk' 9 10)]
    (by decide) (by decide) (by decide) (by decide) (by decide)

theorem lookup_setAlias_self (al : List (String × Nat)) (a : String) (v : Nat) :
    List.lookup a (setAlias al a v) = some v := by
  induction al with
  | nil => simp [setAlias, List.lookup]
  | cons p rest ih =>
    obtain ⟨b, w⟩ := p
    by_cases hba : b = a
    · simp [setAlias, hba, List.lookup]
    · have : (a == b) = false := beq_eq_false_iff_ne.mpr (fun he => hba he.symm)
      simp [setAlias, hba, List.lookup, this, ih]

theorem lookup_setAlias_ne (al : List (String × Nat)) (a b : String) (v : Nat)
    (h : b ≠ a) : List.lookup b (setAlias al a v) = List.lookup b al := by
  induction al with
  | nil => simp [setAlias, List.lookup, beq_eq_false_iff_ne.mpr h]
  | cons p rest ih =>
    obtain ⟨k, w⟩ := p
    by_cases hka : k = a
    · subst hka
      simp [setAlias, List.lookup, beq_eq_false_iff_ne.mpr h]
    · simp [setAlias, hka, List.lookup, ih]

theorem lookup_deleteAlias_self (al : List (String × Nat)) (a : String) :
    List.lookup a (deleteAlias al a) = none := by
  induction al with
  | nil => rfl
  | cons p rest ih =>
    obtain ⟨k, w⟩ := p
    by_cases hka : k = a
    · simpa [deleteAlias, hka] using ih
    · have hak : (a == k) = false := beq_eq_false_iff_ne.mpr (fun he => hka he.symm)
      simpa [deleteAlias, hka, List.lookup, hak] using ih

theorem lookup_deleteAlias_ne (al : List (String × Nat)) (a b : String)
    (h : b ≠ a) : List.lookup b (deleteAlias al a) = List.lookup b al := by
  induction al with
  | nil => rfl
  | cons p rest ih =>
    obtain ⟨k, w⟩ := p
    by_cases hka : k = a
    · subst hka
      simp [deleteAlias, List.lookup, beq_eq_false_iff_ne.mpr h, ih]
    · by_cases hbk : b = k
      · subst hbk
        simp [deleteAlias, hka, List.lookup]
      · have hbkb : (b == k) = false := beq_eq_false_iff_ne.mpr hbk
        simp [deleteAlias, hka, List.lookup, hbkb, ih]

theorem find?_eq_some_of_exists {α : Type} {p : α → Bool} {l : List α}
    (h : ∃ e ∈ l, p e = true) : ∃ e, l.find? p = some e ∧ p e = true := by
  induction l with
  | nil => obtain ⟨e, he, _⟩ := h; simp at he
  | cons a t ih =>
    by_cases hp : p a = true
    · exact ⟨a, by simp [List.find?, hp], hp⟩
    · obtain ⟨e, he, hpe⟩ := h
      rcases List.mem_cons.mp he with rfl | ht
      · exact absurd hpe hp
      · obtain ⟨e', hfind, hpe'⟩ := ih ⟨e, ht, hpe⟩
        refine ⟨e', ?_, hpe'⟩
        simpa [List.find?, Bool.of_not_eq_true hp] using hfind

theorem startsWithL_self_append (p r : List Char) :
    startsWithL p (p ++ r) = true := by
  induction p with
  | nil => rfl
  | cons c cs ih => simp [startsWithL, ih]

theorem containsL_append (pre pat post : List Char) :
    containsL pat (pre ++ (pat ++ post)) = true := by
  induction pre with
  | nil =>
    cases hpp : pat ++ post with
    | nil =>
      have hp : pat = [] := (List.append_eq_nil.mp hpp).1
      subst hp
      rfl
    | cons c cs =>
      have h1 : startsWithL pat (pat ++ post) = true := startsWithL_self_append pat post
      rw [hpp] at h1
      rw [List.nil_append]
      show (startsWithL pat (c :: cs) || containsL pat cs) = true
      rw [h1, Bool.true_or]
  | cons c cs ih =>
    show (startsWithL pat (c :: (cs ++ (pat ++ post))) || containsL pat (cs ++ (pat ++ post))) = true
    rw [ih, Bool.or_true]

theorem strContains_of_data (s pat : String) (pre post : List Char)
    (h : s.data = pre ++ (pat.data ++ post)) : strContains s pat = true := by
  unfold strContains
  rw [h]
  exact containsL_append pre pat.data post

/-- C4 (spec-modelled): running Promotion Approval with an existing challenger
and champion, under auto-approve, re-aliases the former champion to defeated,
the former challenger to champion, and leaves no challenger alias. -/
theorem claim_C4 (r : Registry) (vch vc : Nat)
    (hch : List.lookup aliasChallenger r.aliases = some vch)
    (hc : List.lookup aliasChampion r.aliases = some vc) :
    List.lookup aliasDefeated (promotion_approval r true).1.aliases = some vc ∧
    List.lookup aliasChampion (promotion_approval r true).1.aliases = some vch ∧
    List.lookup aliasChallenger (promotion_approval r true).1.aliases = none := by
  unfold promotion_approval
  rw [hch]
  simp only [hc, if_true]
  refine ⟨?_, ?_, ?_⟩
  · rw [lookup_deleteAlias_ne _ _ _ (by decide),
      lookup_setAlias_ne _ _ _ _ (by decide), lookup_setAlias_self]
  · rw [lookup_deleteAlias_ne _ _ _ (by decide), lookup_setAlias_self]
  · exact lookup_deleteAlias_self _ _

theorem claim_C4_witness :
    List.lookup aliasDefeated
      (promotion_approval ⟨[], [(aliasChallenger, 2), (aliasChampion, 1)]⟩ true).1.aliases
      = some 1 ∧
    List.lookup aliasChampion
      (promotion_approval ⟨[], [(aliasChallenger, 2), (aliasChampion, 1)]⟩ true).1.aliases
      = some 2 ∧
    List.lookup aliasChallenger
      (promotion_approval ⟨[], [(aliasChallenger, 2), (aliasChampion, 1)]⟩ true).1.aliases
      = none :=
  claim_C4 ⟨[], [(aliasChallenger, 2), (aliasChampion, 1)]⟩ 2 1 (by decide) (by decide)

/-- C6 as stated is false: in the beats case the reason reports only the
improvement.  At new accuracy 0.95 over champion 0.90 the comparator reports
beats with a reason that contains neither formatted accuracy. -/
theorem claim_C6_counterexample :
    (evaluate_champion_criteria (Rat.mk' 19 20) (Rat.mk' 9 10) defaultCriteria).1 = true ∧
    strContains (evaluate_champion_criteria (Rat.mk' 19 20) (Rat.mk' 9 10) defaultCriteria).2
      (fmtPercent (Rat.mk' 9 10)) = false ∧
    strContains (evaluate_champion_criteria (Rat.mk' 19 20) (Rat.mk' 9 10) defaultCriteria).2
      (fmtPercent (Rat.mk' 19 20)) = false := by
  refine ⟨by decide, by decide, by decide⟩

/-- C6 amended: the reason always reports the numeric improvement; both
accuracies are reported in the no-beats case only. -/
theorem claim_C6 (n cur : ℚ) (crit : ProductionCriteria) :
    strContains (evaluate_champion_criteria n cur crit).2 (fmtPercent (n - cur)) = true ∧
    ((evaluate_champion_criteria n cur crit).1 = false →
      strContains (evaluate_champion_criteria n cur crit).2 (fmtPercent cur) = true ∧
      strContains (evaluate_champion_criteria n cur crit).2 (fmtPercent n) = true) := by
  have e : qsub n cur = n - cur := qsub_eq n cur
  rw [← e]
  unfold evaluate_champion_criteria
  by_cases h : qsub n cur < crit.min_accuracy_improvement
  · simp only [if_pos h]
    refine ⟨?_, fun _ => ⟨?_, ?_⟩⟩
    · exact strContains_of_data _ _ ("Accuracy improvement ").data
        ((" below " ++ fmtPercent crit.min_accuracy_improvement ++ " threshold (current: " ++
          fmtPercent cur ++ ", new: " ++ fmtPercent n ++ ")").data) (by simp)
    · exact strContains_of_data _ _
        (("Accuracy improvement " ++ fmtPercent (qsub n cur) ++ " below " ++
          fmtPercent crit.min_accuracy_improvement ++ " threshold (current: ").data)
        ((", new: " ++ fmtPercent n ++ ")").data) (by simp)
    · exact strContains_of_data _ _
        (("Accuracy improvement " ++ fmtPercent (qsub n cur) ++ " below " ++
          fmtPercent crit.min_accuracy_improvement ++ " threshold (current: " ++
          fmtPercent cur ++ ", new: ").data) ((")").data) (by simp)
  · simp only [if_neg h]
    refine ⟨?_, fun hf => by simp at hf⟩
    exact strContains_of_data _ _ (("Beats champion by ").data) [] (by simp)

theorem claim_C6_witness :
    strContains
      (evaluate_champion_criteria (Rat.mk' 183 200) (Rat.mk' 9 10) defaultCriteria).2
      (fmtPercent (Rat.mk' 9 10)) = true ∧
    strContains
      (evaluate_champion_criteria (Rat.mk' 183 200) (Rat.mk' 9 10) defaultCriteria).2
      (fmtPercent (Rat.mk' 183 200)) = true :=
  (claim_C6 (Rat.mk' 183 200) (Rat.mk' 9 10) defaultCriteria).2 (by decide)

/-- C8 as stated is false: get_champion_metrics swallows every exception of the
alias lookup, so an unreachable registry during the champion lookup yields the
same result as the no-champion absence state. -/
theorem claim_C8_counterexample :
    get_champion_metrics (Except.error RegFailure.connectivity)
      (fun _ => Except.error RegFailure.connectivity) = none ∧
    get_champion_metrics (Except.error RegFailure.notFound)
      (fun _ => Except.error RegFailure.notFound) = none :=
  ⟨rfl, rfl⟩

/-- C8 amended: any failing champion lookup, a connectivity failure included,
is mapped to the no-champion result none; the champion metrics are produced
only when both registry calls succeed. -/
theorem claim_C8 (e : RegFailure) (getRun : Nat → Except RegFailure Metrics) :
    get_champion_metrics (Except.error e) getRun =
      get_champion_metrics (Except.error RegFailure.notFound) getRun ∧
    get_champion_metrics (Except.error e) getRun = none ∧
    (∀ (v : Nat) (ms : Metrics), getRun v = Except.ok ms →
      get_champion_metrics (Except.ok v) getRun =
        some [ (keyCategoryAccuracy, mget ms keyCategoryAccuracy),
               (keyCategoryF1, mget ms keyCategoryF1),
               (keyCategoryPrecision, mget ms keyCategoryPrecision),
               (keyCategoryRecall, mget ms keyCategoryRecall) ]) := by
  refine ⟨rfl, rfl, fun v ms hv => ?_⟩
  simp only [get_champion_metrics, hv]

theorem claim_C8_witness :
    get_champion_metrics (Except.ok 1)
      (fun _ => Except.ok [(keyCategoryAccuracy, Rat.mk' 9 10)]) =
      some [ (keyCategoryAccuracy, mget [(keyCategoryAccuracy, Rat.mk' 9 10)] keyCategoryAccuracy),
             (keyCategoryF1, mget [(keyCategoryAccuracy, Rat.mk' 9 10)] keyCategoryF1),
             (keyCategoryPrecision,
               mget [(keyCategoryAccuracy, Rat.mk' 9 10)] keyCategoryPrecision),
             (keyCategoryRecall, mget [(keyCategoryAccuracy, Rat.mk' 9 10)] keyCategoryRecall) ] :=
  (claim_C8 RegFailure.connectivity
    (fun _ => Except.ok [(keyCategoryAccuracy, Rat.mk' 9 10)])).2.2 1 _ rfl

/-- C1: under automated gating, failing criteria registers nothing; a passing
non-duplicate candidate with no champion is registered with the champion alias
directly; with a champion it beats it is registered as challenger; with a
champion it does not beat it is registered as candidate. -/
theorem claim_C1 (r : Registry) (m : Metrics) (provider model : String)
    (champ : Option Metrics) :
    ((evaluate_performance_criteria m defaultCriteria).1 = false →
      run_experiment r m provider model true true champ = (r, none)) ∧
    ((evaluate_performance_criteria m defaultCriteria).1 = true →
      check_duplicate_performance r m = none → champ = none →
      (run_experiment r m provider model true true champ).2 =
        some (nextVersion r, some aliasChampion) ∧
      (run_experiment r m provider model true true champ).1.entries.length =
        r.entries.length + 1) ∧
    (∀ cm, (evaluate_performance_criteria m defaultCriteria).1 = true →
      check_duplicate_performance r m = none → champ = some cm →
      (evaluate_champion_criteria (mget m keyCategoryAccuracy)
        (mget cm keyCategoryAccuracy) defaultCriteria).1 = true →
      (run_experiment r m provider model true true champ).2 =
        some (nextVersion r, some aliasChallenger)) ∧
    (∀ cm, (evaluate_performance_criteria m defaultCriteria).1 = true →
      check_duplicate_performance r m = none → champ = some cm →
      (evaluate_champion_criteria (mget m keyCategoryAccuracy)
        (mget cm keyCategoryAccuracy) defaultCriteria).1 = false →
      (run_experiment r m provider model true true champ).2 =
        some (nextVersion r, some aliasCandidate)) := by
  refine ⟨?_, ?_, ?_, ?_⟩
  · intro hfail
    simp [run_experiment, run_experiment_gate, hfail]
  · intro hpass hdup hchamp
    subst hchamp
    constructor
    · simp [run_experiment, run_experiment_gate, hpass, hdup, register_model_to_uc]
    · simp [run_experiment, run_experiment_gate, hpass, hdup, register_model_to_uc]
  · intro cm hpass hdup hchamp hbeats
    subst hchamp
    simp [run_experiment, run_experiment_gate, hpass, hdup, hbeats, register_model_to_uc]
  · intro cm hpass hdup hchamp hbeats
    subst hchamp
    simp [run_experiment, run_experiment_gate, hpass, hdup, hbeats, register_model_to_uc]

theorem claim_C1_witness :
    (run_experiment ⟨[], []⟩ [] providerName modelName true true none = (⟨[], []⟩, none)) ∧
    ((run_experiment ⟨[], []⟩
      [(keyCategoryAccuracy, Rat.mk' 19 20), (keyCategoryF1, Rat.mk' 9 10),
       (keyCategoryPrecision, Rat.mk' 9 10), (keyCategoryRecall, Rat.mk' 9 10)]
      providerName modelName true true none).2 = some (1, some aliasChampion)) ∧
    ((run_experiment ⟨[], []⟩
      [(keyCategoryAccuracy, Rat.mk' 19 20), (keyCategoryF1, Rat.mk' 9 10),
       (keyCategoryPrecision, Rat.mk' 9 10), (keyCategoryRecall, Rat.mk' 9 10)]
      providerName modelName true true
      (some [(keyCategoryAccuracy, Rat.mk' 9 10)])).2 = some (1, some aliasChallenger)) ∧
    ((run_experiment ⟨[], []⟩
      [(keyCategoryAccuracy, Rat.mk' 19 20), (keyCategoryF1, Rat.mk' 9 10),
       (keyCategoryPrecision, Rat.mk' 9 10), (keyCategoryRecall, Rat.mk' 9 10)]
      providerName modelName true true
      (some [(keyCategoryAccuracy, Rat.mk' 19 20)])).2 = some (1, some aliasCandidate)) :=
  ⟨(claim_C1 ⟨[], []⟩ [] providerName modelName none).1 (by decide),
   ((claim_C1 ⟨[], []⟩ _ providerName modelName none).2.1 (by decide) (by decide) rfl).1,
   (claim_C1 ⟨[], []⟩ _ providerName modelName _).2.2.1
     [(keyCategoryAccuracy, Rat.mk' 9 10)] (by decide) (by decide) rfl (by decide),
   (claim_C1 ⟨[], []⟩ _ providerName modelName _).2.2.2
     [(keyCategoryAccuracy, Rat.mk' 19 20)] (by decide) (by decide) rfl (by decide)⟩

/-- C5: when the registry already holds an entry whose stored metric tags are
value-identical to the passing candidate's metrics, the duplicate check
returns a matching entry and the run registers nothing: the registry is left
unchanged and no alias is assigned. -/
theorem claim_C5 (r : Registry) (m : Metrics) (provider model : String)
    (champ : Option Metrics)
    (hpass : (evaluate_performance_criteria m defaultCriteria).1 = true)
    (hdup : ∃ e ∈ r.entries, duplicateTagMatch e m = true) :
    (∃ e, check_duplicate_performance r m = some e ∧ duplicateTagMatch e m = true) ∧
    run_experiment r m provider model true true champ = (r, none) := by
  obtain ⟨e, hfind, hmatch⟩ := find?_eq_some_of_exists hdup
  have hcd : check_duplicate_performance r m = some e := hfind
  refine ⟨⟨e, hcd, hmatch⟩, ?_⟩
  simp [run_experiment, run_experiment_gate, hpass, hcd]

theorem claim_C5_witness :
    run_experiment
      ⟨[⟨1,
          get_registration_tags
            [(keyCategoryAccuracy, Rat.mk' 19 20), (keyCategoryF1, Rat.mk' 9 10),
             (keyCategoryPrecision, Rat.mk' 9 10), (keyCategoryRecall, Rat.mk' 9 10)]
            ("A") providerName modelName true successMessage,
          [], ""⟩], [(aliasChampion, 1)]⟩
      [(keyCategoryAccuracy, Rat.mk' 19 20), (keyCategoryF1, Rat.mk' 9 10),
       (keyCategoryPrecision, Rat.mk' 9 10), (keyCategoryRecall, Rat.mk' 9 10)]
      providerName modelName true true none =
      (⟨[⟨1,
          get_registration_tags
            [(keyCategoryAccuracy, Rat.mk' 19 20), (keyCategoryF1, Rat.mk' 9 10),
             (keyCategoryPrecision, Rat.mk' 9 10), (keyCategoryRecall, Rat.mk' 9 10)]
            ("A") providerName modelName true successMessage,
          [], ""⟩], [(aliasChampion, 1)]⟩, none) :=
  (claim_C5 _ _ providerName modelName none (by decide) (by decide)).2

/-- C7: with an existing champion and a passing, non-duplicate candidate that
beats it, the run assigns the challenger alias to the newly registered version
only; the incumbent keeps the champion alias and no other alias binding is
touched. -/
theorem claim_C7 (r : Registry) (m : Metrics) (provider model : String)
    (cm : Metrics) (v0 : Nat)
    (hchamp : lookupAlias r aliasChampion = some v0)
    (hpass : (evaluate_performance_criteria m defaultCriteria).1 = true)
    (hdup : check_duplicate_performance r m = none)
    (hbeats : (evaluate_champion_criteria (mget m keyCategoryAccuracy)
      (mget cm keyCategoryAccuracy) defaultCriteria).1 = true) :
    (run_experiment r m provider model true true (some cm)).2 =
      some (nextVersion r, some aliasChallenger) ∧
    lookupAlias (run_experiment r m provider model true true (some cm)).1 aliasChampion =
      some v0 ∧
    lookupAlias (run_experiment r m provider model true true (some cm)).1 aliasChallenger =
      some (nextVersion r) ∧
    ∀ a, a ≠ aliasChallenger →
      List.lookup a (run_experiment r m provider model true true (some cm)).1.aliases =
        List.lookup a r.aliases := by
  have halias : (run_experiment r m provider model true true (some cm)).1.aliases =
      setAlias r.aliases aliasChallenger (nextVersion r) := by
    simp [run_experiment, run_experiment_gate, hpass, hdup, hbeats, register_model_to_uc]
  refine ⟨?_, ?_, ?_, ?_⟩
  · simp [run_experiment, run_experiment_gate, hpass, hdup, hbeats, register_model_to_uc]
  · unfold lookupAlias
    rw [halias, lookup_setAlias_ne _ _ _ _ (by decide)]
    exact hchamp
  · unfold lookupAlias
    rw [halias, lookup_setAlias_self]
  · intro a ha
    rw [halias, lookup_setAlias_ne _ _ _ _ ha]

theorem claim_C7_witness :
    ((run_experiment ⟨[⟨1, [], [], ""⟩], [(aliasChampion, 1)]⟩
      [(keyCategoryAccuracy, Rat.mk' 19 20), (keyCategoryF1, Rat.mk' 9 10),
       (keyCategoryPrecision, Rat.mk' 9 10), (keyCategoryRecall, Rat.mk' 9 10)]
      providerName modelName true true
      (some [(keyCategoryAccuracy, Rat.mk' 9 10)])).2 = some (2, some aliasChallenger)) ∧
    lookupAlias (run_experiment ⟨[⟨1, [], [], ""⟩], [(aliasChampion, 1)]⟩
      [(keyCategoryAccuracy, Rat.mk' 19 20), (keyCategoryF1, Rat.mk' 9 10),
       (keyCategoryPrecision, Rat.mk' 9 10), (keyCategoryRecall, Rat.mk' 9 10)]
      providerName modelName true true
      (some [(keyCategoryAccuracy, Rat.mk' 9 10)])).1 aliasChampion = some 1 ∧
    lookupAlias (run_experiment ⟨[⟨1, [], [], ""⟩], [(aliasChampion, 1)]⟩
      [(keyCategoryAccuracy, Rat.mk' 19 20), (keyCategoryF1, Rat.mk' 9 10),
       (keyCategoryPrecision, Rat.mk' 9 10), (keyCategoryRecall, Rat.mk' 9 10)]
      providerName modelName true true
      (some [(keyCategoryAccuracy, Rat.mk' 9 10)])).1 aliasChallenger = some 2 ∧
    List.lookup aliasCandidate (run_experiment ⟨[⟨1, [], [], ""⟩], [(aliasChampion, 1)]⟩
      [(keyCategoryAccuracy, Rat.mk' 19 20), (keyCategoryF1, Rat.mk' 9 10),
       (keyCategoryPrecision, Rat.mk' 9 10), (keyCategoryRecall, Rat.mk' 9 10)]
      providerName modelName true true
      (some [(keyCategoryAccuracy, Rat.mk' 9 10)])).1.aliases =
      List.lookup aliasCandidate [(aliasChampion, 1)] :=
  ⟨(claim_C7 ⟨[⟨1, [], [], ""⟩], [(aliasChampion, 1)]⟩ _ providerName modelName
      [(keyCategoryAccuracy, Rat.mk' 9 10)] 1
      (by decide) (by decide) (by decide) (by decide)).1,
   (claim_C7 ⟨[⟨1, [], [], ""⟩], [(aliasChampion, 1)]⟩ _ providerName modelName
      [(keyCategoryAccuracy, Rat.mk' 9 10)] 1
      (by decide) (by decide) (by decide) (by decide)).2.1,
   (claim_C7 ⟨[⟨1, [], [], ""⟩], [(aliasChampion, 1)]⟩ _ providerName modelName
      [(keyCategoryAccuracy, Rat.mk' 9 10)] 1
      (by decide) (by decide) (by decide) (by decide)).2.2.1,
   (claim_C7 ⟨[⟨1, [], [], ""⟩], [(aliasChampion, 1)]⟩ _ providerName modelName
      [(keyCategoryAccuracy, Rat.mk' 9 10)] 1
      (by decide) (by decide) (by decide) (by decide)).2.2.2 aliasCandidate (by decide)⟩

end NewsClassifier
